import Mathlib

/-!
Verification of the `ExternalPlugin` adapter of the pedalboard repository
(src/pedalboard/ExternalPlugin.h) against its natural-language specification.

The C++ source is shallowly embedded below:

* `Bus`, `Param`, `PluginInstance`, `Handle`, `GlobalState` model the JUCE
  objects and the adapter's own state (the plugin instance's buses, the
  parameter list, the handle's stored description and instance pointer, and the
  process-wide active-instance counter plus message-manager singleton).
* Calls into the wrapped JUCE framework (`createPluginInstance`,
  `scanAndAddFile`, file-existence checks, the `uname` machine name, and the
  native `processBlock`) are modelled as explicit environment parameters
  (`HostEnv`, and the `native` argument of `process`): the adapter's own logic
  is translated line by line from the header, while the framework is an
  external collaborator whose answers the adapter merely consumes.
* C++ exceptions become an explicit `Option PbErr` result; the error messages
  are the exact strings built by the source.  Undefined behaviour in the
  source (a null-pointer dereference, an out-of-bounds write into a
  `std::vector`) is made explicit as the distinguished results
  `PbErr.nullBusAccess` and `PbErr.outOfBoundsWrite`: the C++ abstract machine
  gives those paths no defined behaviour, so the model stops there.
* Audio samples are opaque: `process` is polymorphic in the sample type, with
  the zero used for scratch channels passed explicitly.  The counter
  `NUM_ACTIVE_EXTERNAL_PLUGINS` is a C++ `int`; it is modelled as `Int`
  (overflow is immaterial at realistic instance counts).
-/

namespace Pedalboard

/-- A JUCE `AudioProcessor::Bus`: whether it is enabled, its current channel
count, and the plugin-defined response to `setNumberOfChannels` requests
(`respond n` is the channel count the bus actually ends up with after the
host requests `n`; a plugin may refuse a change and keep another count). -/
structure Bus where
  enabled : Bool
  numChannels : Nat
  respond : Nat → Nat

/-- `juce::AudioProcessor::Bus::setNumberOfChannels`: a request that the
plugin may grant or refuse; the caller must re-read the actual count. -/
def Bus.setNumberOfChannels (b : Bus) (n : Nat) : Bus :=
  { b with numChannels := b.respond n }

/-- A JUCE `AudioProcessorParameter`, reduced to the data the adapter reads:
its full display name.  `getName maxLen` truncates to `maxLen` characters. -/
structure Param where
  name : String
deriving DecidableEq, Repr

/-- `juce::AudioProcessorParameter::getName(maximumStringLength)`: the
display name truncated to at most `maxLen` characters. -/
def Param.getName (p : Param) (maxLen : Nat) : String :=
  (p.name.toList.take maxLen).asString

/-- An opaque serialized plugin state blob (`juce::MemoryBlock`). -/
structure StateBlob where
  bytes : List Nat
deriving DecidableEq, Repr

/-- The default-constructed (empty) `juce::MemoryBlock`. -/
def emptyBlob : StateBlob := ⟨[]⟩

/-- A `juce::PluginDescription`: opaque metadata identifying one plugin found
by a scan. -/
structure PluginDescription where
  descName : String
  uniqueId : Nat
deriving DecidableEq, Repr

/-- A live `juce::AudioPluginInstance`, reduced to the data the adapter
touches: its name, its input/output bus lists (index 0 is the main bus), its
parameter list, its serialized state, and a counter of `reset()` calls (used
to express that the adapter invokes the instance's own reset). -/
structure PluginInstance where
  instName : String
  inputBuses : List Bus
  outputBuses : List Bus
  params : List Param
  stateBlob : StateBlob
  resetCount : Nat

/-- `getBus(isInput, i)`; `none` models the null pointer JUCE returns when
the bus does not exist. -/
def PluginInstance.getBus (p : PluginInstance) (isInput : Bool) (i : Nat) : Option Bus :=
  (if isInput then p.inputBuses else p.outputBuses).get? i

/-- `getMainBusNumInputChannels()`: channel count of input bus 0, or 0. -/
def PluginInstance.getMainBusNumInputChannels (p : PluginInstance) : Nat :=
  ((p.inputBuses.head?).map Bus.numChannels).getD 0

/-- `getMainBusNumOutputChannels()`: channel count of output bus 0, or 0. -/
def PluginInstance.getMainBusNumOutputChannels (p : PluginInstance) : Nat :=
  ((p.outputBuses.head?).map Bus.numChannels).getD 0

/-- The error taxonomy of the adapter, in the spec's names.  The mapping to
the C++ exception classes thrown by the source is:
`pluginNotFound`/`pluginLoad` are `pybind11::import_error`,
`unsupportedConfiguration`/`channelMismatch` are `std::invalid_argument`,
`notImplemented` is `std::runtime_error`.  The last two constructors are not
exceptions at all: they mark points where the source performs an operation
with no defined behaviour (`nullBusAccess`: dereferencing the null
`mainOutputBus` pointer; `outOfBoundsWrite`: writing `channelPointers[i]`
past the end of the vector in `process`). -/
inductive PbErr where
  | pluginNotFound (msg : String)
  | pluginLoad (msg : String)
  | unsupportedConfiguration (msg : String)
  | channelMismatch (msg : String)
  | notImplemented (msg : String)
  | nullBusAccess
  | outOfBoundsWrite
deriving DecidableEq, Repr

/-- Whether the error is raised as a `pybind11::import_error`
(`ImportError`-class on the Python side). -/
def PbErr.isImportError : PbErr → Bool
  | .pluginNotFound _ => true
  | .pluginLoad _ => true
  | _ => false

/-- Whether the error is the spec's `ChannelMismatchError` (the
`std::invalid_argument` thrown by `process`). -/
def PbErr.isChannelMismatch : PbErr → Bool
  | .channelMismatch _ => true
  | _ => false

/-! ## The block processor (`ExternalPlugin::process`, source lines 311-380) -/

/-- Channels summed at the top of `process`: every enabled input bus
contributes its channel count. -/
def sumEnabledInputChannels (inst : PluginInstance) : Nat :=
  (inst.inputBuses.filter Bus.enabled).foldl (fun acc b => acc + b.numChannels) 0

/-- The first `std::invalid_argument` message of `process` (input-channel
mismatch), exactly as the source builds it. -/
def inputMismatchMessage (inst : PluginInstance) (provided : Nat) : String :=
  "Plugin '" ++ inst.instName ++ "' was instantiated with " ++
    toString inst.getMainBusNumInputChannels ++
    "-channel input, but data provided was " ++ toString provided ++ "-channel."

/-- The second `std::invalid_argument` message of `process` (output-channel
shortfall), exactly as the source builds it. -/
def outputMismatchMessage (inst : PluginInstance) (provided : Nat) : String :=
  "Plugin '" ++ inst.instName ++ "' produces " ++
    toString inst.getMainBusNumOutputChannels ++
    "-channel output, but data provided was " ++ toString provided ++
    "-channel. (The number of channels returned must match the " ++
    "number of channels passed in.)"

/-- Result of `process`: the caller's buffer after the call (the source
processes in place), and the exception thrown, if any. -/
structure ProcOut (α : Type) where
  buffer : List (List α)
  err : Option PbErr
deriving DecidableEq, Repr

/-- Sample count of a block (`AudioBlock::getNumSamples`); our blocks are
per-channel sample lists, all of equal length in a well-formed block. -/
def numSamplesOf {α : Type} (block : List (List α)) : Nat :=
  ((block.head?).map List.length).getD 0

/-- `ExternalPlugin::process(context)`.  `zeroSample` is the value
`std::vector<float>` default-initializes scratch channels to; `native` is the
wrapped `pluginInstance->processBlock` call (external collaborator);
`usesSeparateBlocks` is `context.usesSeparateInputAndOutputBlocks()`;
`outputBlock` is the caller's buffer viewed through `context.getOutputBlock()`.
Translated line by line:
if there is no instance the whole body is skipped; otherwise separate
input/output blocks throw; otherwise the enabled input channels are summed,
the channel-pointer array is filled (writing past its end if the caller's
block has more channels than the sum: `outOfBoundsWrite`), scratch channels
are appended, the two channel-count validations may throw, and finally
`processBlock` runs in place on the first `outputBlock.length` channels. -/
def process {α : Type} (zeroSample : α)
    (native : PluginInstance → List (List α) → List (List α))
    (inst? : Option PluginInstance) (usesSeparateBlocks : Bool)
    (outputBlock : List (List α)) : ProcOut α :=
  match inst? with
  | none => ⟨outputBlock, none⟩
  | some inst =>
    if usesSeparateBlocks then
      ⟨outputBlock, some (.notImplemented
        ("Not implemented yet - no support for using separate " ++
         "input and output blocks."))⟩
    else
      let pluginBufferChannelCount := sumEnabledInputChannels inst
      if pluginBufferChannelCount < outputBlock.length then
        ⟨outputBlock, some .outOfBoundsWrite⟩
      else
        let dummyChannel := List.replicate (numSamplesOf outputBlock) zeroSample
        let channelPointers :=
          outputBlock ++
            List.replicate (pluginBufferChannelCount - outputBlock.length) dummyChannel
        if inst.getMainBusNumInputChannels ≠ outputBlock.length then
          ⟨outputBlock, some (.channelMismatch (inputMismatchMessage inst outputBlock.length))⟩
        else if inst.getMainBusNumOutputChannels < outputBlock.length then
          ⟨outputBlock, some (.channelMismatch (outputMismatchMessage inst outputBlock.length))⟩
        else
          ⟨(native inst channelPointers).take outputBlock.length, none⟩

/-! ## Path helpers (JUCE `juce::File` string operations, Linux platform:
the separator is `/`) -/

/-- `String::trimCharactersAtEnd(juce::File::getSeparatorString())`: remove
all trailing separator characters. -/
def trimTrailingSeparators (s : String) : String :=
  ((s.toList.reverse.dropWhile (fun c => c == '/')).reverse).asString

/-- `juce::File::getChildFile(name)` for a simple relative child name:
append with the separator (the source only passes plain names here). -/
def getChildFile (parent child : String) : String :=
  parent ++ "/" ++ child

/-- `juce::File::getFileNameWithoutExtension()`: the part after the last
separator, with the trailing extension removed when the last dot sits
strictly inside that file name (a leading dot alone is kept). -/
def fileNameWithoutExtension (fullPath : String) : String :=
  let fileName := (fullPath.toList.reverse.takeWhile (fun c => c != '/')).reverse
  let rev := fileName.reverse
  let afterDot := rev.takeWhile (fun c => c != '.')
  if afterDot.length + 1 < rev.length then
    ((rev.drop (afterDot.length + 1)).reverse).asString
  else
    fileName.asString

/-! ## Global host state and the plugin handle -/

/-- `GlobalHostState`: the process-wide counter `NUM_ACTIVE_EXTERNAL_PLUGINS`
(a C++ `int`, modelled as `Int`) and whether the `juce::MessageManager`
singleton currently exists. -/
structure GlobalState where
  numActive : Int
  mmExists : Bool
deriving DecidableEq, Repr

/-- The freshly started process: no active plugins, no MessageManager. -/
def initialGlobalState : GlobalState := ⟨0, false⟩

/-- An `ExternalPlugin` object: the stored path, the single description kept
from the scan, and the exclusively owned instance pointer (`none` models a
null `std::unique_ptr`). -/
structure Handle where
  pathToPluginFile : String
  foundPluginDescription : PluginDescription
  pluginInstance : Option PluginInstance

/-- The calls into the wrapped JUCE framework that the loader makes, as an
abstract environment: whether a (separator-stripped) path exists on disk,
which plugin descriptions `scanAndAddFile` yields for it,
`createPluginInstance` (returning either the instance or JUCE's error
string), and the `uname` machine name (empty when `uname` fails). -/
structure HostEnv where
  fileExists : String → Bool
  scan : String → List PluginDescription
  create : PluginDescription → Nat → Nat → Except String PluginInstance
  machineName : String

/-- `ExternalLoadSampleRate` (source line 400). -/
def ExternalLoadSampleRate : Nat := 44100

/-- `ExternalLoadMaximumBlockSize` (source line 401). -/
def ExternalLoadMaximumBlockSize : Nat := 8192

/-- The observable steps the loader/reinstantiator performs, in order, as a
trace: MessageManager creation, the file scan, state capture, instance
destruction, the counter mutations, instance creation (with the sample rate
and block size passed), state reapplication, and the instance reset. -/
inductive TraceEv where
  | ensureMessageManager
  | scanFile (path : String)
  | getState (blob : StateBlob)
  | destroyInstance
  | decrementCount
  | tryCreateInstance (desc : PluginDescription) (sampleRate maximumBlockSize : Nat) (ok : Bool)
  | incrementCount
  | setState (blob : StateBlob)
  | resetInstance
deriving DecidableEq, Repr

/-- The instance as it looks right after a successful reinstantiation: the
freshly created instance with the captured state blob reapplied
(`setStateInformation`) and one additional `reset()` call. -/
def restoredInstance (fresh : PluginInstance) (blob : StateBlob) : PluginInstance :=
  { fresh with stateBlob := blob, resetCount := fresh.resetCount + 1 }

/-- Result of `reinstantiatePlugin`: the handle afterwards (its state even
when the call throws), the global state, the exception if any, and the trace
of steps performed. -/
structure ReinstOut where
  handle : Handle
  global : GlobalState
  err : Option PbErr
  trace : List TraceEv

/-- `ExternalPlugin::reinstantiatePlugin` (source lines 193-226).  If an
instance exists its state is captured, the instance is destroyed and the
counter decremented; then `createPluginInstance(foundPluginDescription,
ExternalLoadSampleRate, ExternalLoadMaximumBlockSize, loadError)` runs: on
failure a `pybind11::import_error` carrying JUCE's error string is thrown
(the handle now owns no instance); on success the counter is incremented,
the saved state is reapplied via `setStateInformation`, and the new
instance's own `reset()` is called. -/
def reinstantiatePlugin (env : HostEnv) (h : Handle) (g : GlobalState) : ReinstOut :=
  let saved : StateBlob × Handle × GlobalState × List TraceEv :=
    match h.pluginInstance with
    | some inst =>
        (inst.stateBlob, { h with pluginInstance := none },
         { g with numActive := g.numActive - 1 },
         [.getState inst.stateBlob, .destroyInstance, .decrementCount])
    | none => (emptyBlob, h, g, [])
  let savedState := saved.1
  let h1 := saved.2.1
  let g1 := saved.2.2.1
  let tr1 := saved.2.2.2
  match env.create h1.foundPluginDescription ExternalLoadSampleRate ExternalLoadMaximumBlockSize with
  | .error loadError =>
      { handle := h1, global := g1,
        err := some (.pluginLoad
          ("Unable to load plugin " ++ h1.pathToPluginFile ++ ": " ++ loadError)),
        trace := tr1 ++ [.tryCreateInstance h1.foundPluginDescription
          ExternalLoadSampleRate ExternalLoadMaximumBlockSize false] }
  | .ok fresh =>
      let restored : PluginInstance := restoredInstance fresh savedState
      { handle := { h1 with pluginInstance := some restored },
        global := { g1 with numActive := g1.numActive + 1 },
        err := none,
        trace := tr1 ++ [.tryCreateInstance h1.foundPluginDescription
          ExternalLoadSampleRate ExternalLoadMaximumBlockSize true,
          .incrementCount, .setState savedState, .resetInstance] }

/-- The Linux scan-failure message of the constructor (source lines 148-171):
the `ldd` dependency hint is built from the expected shared-object path
`<bundle>/Contents/<machine>-linux/<bundle-name>.so`. -/
def scanFailureMessage (machineName originalPath strippedPath : String) : String :=
  let pathToSharedObjectFile :=
    getChildFile
      (getChildFile (getChildFile strippedPath "Contents") (machineName ++ "-linux"))
      (fileNameWithoutExtension strippedPath ++ ".so")
  "Unable to load plugin " ++ originalPath ++
    ": unsupported plugin format or load failure. Plugin files or " ++
    "shared library dependencies may be missing. (Try running `ldd \"" ++
    pathToSharedObjectFile ++ "\"` to " ++
    "see which dependencies might be missing.)."

/-- The file-not-found message of the constructor (source lines 137-139). -/
def notFoundMessage (originalPath : String) : String :=
  "Unable to load plugin " ++ originalPath ++ ": plugin file not found."

/-- Result of the constructor: the handle if construction completed (a C++
constructor that throws produces no object), the global state, the
exception if any, and the trace. -/
structure CtorOut where
  handle : Option Handle
  global : GlobalState
  err : Option PbErr
  trace : List TraceEv

/-- `ExternalPlugin::ExternalPlugin` (source lines 115-178, Linux platform).
`MessageManager::getInstance()` runs first (creating the singleton if
absent), then the path is stripped of trailing separators and checked for
existence (`pluginNotFound` if missing, before any scan); then the file is
scanned; an empty scan throws `pluginLoad` with the Linux `ldd` hint;
otherwise the first description found is kept and `reinstantiatePlugin`
creates the instance (at `ExternalLoadSampleRate`/`ExternalLoadMaximumBlockSize`),
whose failure propagates out of the constructor. -/
def constructPlugin (env : HostEnv) (path : String) (g : GlobalState) : CtorOut :=
  let g1 : GlobalState := { g with mmExists := true }
  let stripped := trimTrailingSeparators path
  if env.fileExists stripped then
    match env.scan stripped with
    | d :: _rest =>
        let h0 : Handle :=
          { pathToPluginFile := path, foundPluginDescription := d, pluginInstance := none }
        let r := reinstantiatePlugin env h0 g1
        match r.err with
        | some e =>
            { handle := none, global := r.global, err := some e,
              trace := [.ensureMessageManager, .scanFile stripped] ++ r.trace }
        | none =>
            { handle := some r.handle, global := r.global, err := none,
              trace := [.ensureMessageManager, .scanFile stripped] ++ r.trace }
    | [] =>
        { handle := none, global := g1,
          err := some (.pluginLoad (scanFailureMessage env.machineName path stripped)),
          trace := [.ensureMessageManager, .scanFile stripped] }
  else
    { handle := none, global := g1,
      err := some (.pluginNotFound (notFoundMessage path)),
      trace := [.ensureMessageManager] }

/-- `ExternalPlugin::~ExternalPlugin` (source lines 180-191): under the
global lock the instance is freed and `NUM_ACTIVE_EXTERNAL_PLUGINS` is
decremented unconditionally; when the counter reaches exactly zero the
shared `MessageManager` singleton is deleted.  The handle's contents are
never consulted. -/
def destroyHandle (_h : Handle) (g : GlobalState) : GlobalState :=
  let n := g.numActive - 1
  if n = 0 then { numActive := n, mmExists := false }
  else { g with numActive := n }

/-! ## The channel negotiator (`ExternalPlugin::setNumChannels`,
source lines 228-272) -/

/-- `disableNonMainBuses` plus the explicit `enable(false)` loops of the
source: every bus except bus 0 is disabled. -/
def disableNonMain (buses : List Bus) : List Bus :=
  match buses with
  | [] => []
  | b :: rest => b :: rest.map (fun c => { c with enabled := false })

/-- The instrument-rejection message of `setNumChannels` (source lines
238-241): thrown when the plugin has no main input bus. -/
def noInputBusMessage (pluginName : String) : String :=
  "Plugin '" ++ pluginName ++ "' does not accept audio input. It may be " ++
    "an instrument plug-in and not an audio effect processor."

/-- The channel-count rejection message of `setNumChannels` (source lines
263-270): names the plugin, the requested count and both buses' actual
post-request counts. -/
def channelRefusalMessage (pluginName : String) (requested actualIn actualOut : Nat) : String :=
  "Plugin '" ++ pluginName ++ "' does not support " ++ toString requested ++
    "-channel input and output. (Main bus currently expects " ++
    toString actualIn ++ " input channels and " ++
    toString actualOut ++ " output channels.)"

/-- Result of `setNumChannels`: the instance afterwards (its buses are
mutated even on the throwing path) and the exception if any. -/
structure SetChanOut where
  inst : Option PluginInstance
  err : Option PbErr

/-- `ExternalPlugin::setNumChannels(numChannels)`.  A null instance returns
at once.  Non-main buses are disabled; a missing main input bus throws the
instrument rejection; a missing main output bus is dereferenced as a null
pointer in the source (`nullBusAccess`); otherwise both main buses receive a
`setNumberOfChannels` request and, if either bus's actual count afterwards
differs from the request, the rejection naming all counts is thrown. -/
def setNumChannels (inst? : Option PluginInstance) (numChannels : Nat) : SetChanOut :=
  match inst? with
  | none => ⟨none, none⟩
  | some inst0 =>
    let inst : PluginInstance :=
      { inst0 with inputBuses := disableNonMain inst0.inputBuses,
                   outputBuses := disableNonMain inst0.outputBuses }
    match inst.inputBuses with
    | [] => ⟨some inst, some (.unsupportedConfiguration (noInputBusMessage inst.instName))⟩
    | mainIn :: restIn =>
      match inst.outputBuses with
      | [] => ⟨some inst, some .nullBusAccess⟩
      | mainOut :: restOut =>
        let mainIn2 := mainIn.setNumberOfChannels numChannels
        let mainOut2 := mainOut.setNumberOfChannels numChannels
        let inst2 : PluginInstance :=
          { inst with inputBuses := mainIn2 :: restIn, outputBuses := mainOut2 :: restOut }
        if mainIn2.numChannels ≠ numChannels ∨ mainOut2.numChannels ≠ numChannels then
          ⟨some inst2, some (.unsupportedConfiguration
            (channelRefusalMessage inst2.instName numChannels
              mainIn2.numChannels mainOut2.numChannels))⟩
        else
          ⟨some inst2, none⟩

/-! ## The parameter bridge (`ExternalPlugin::getParameter`,
source lines 390-397) -/

/-- The lookup loop of `getParameter`: walk the parameter list and return
the first parameter whose `getName(512)` equals the query. -/
def findParam : List Param → String → Option Param
  | [], _ => none
  | p :: ps, query => if p.getName 512 == query then some p else findParam ps query

/-- `ExternalPlugin::getParameter(name)`: linear first-match lookup over the
live instance's parameter list; a null result models the `nullptr` return. -/
def PluginInstance.getParameter (inst : PluginInstance) (query : String) : Option Param :=
  findParam inst.params query

/-! ## The lifecycle state machine (for the cross-handle counter claims) -/

/-- One process-wide lifecycle step: constructing a handle from a path,
destroying the live handle at an index, or reinstantiating the live handle
at an index. -/
inductive LifecycleEvent where
  | construct (path : String)
  | destroy (i : Nat)
  | reinstantiate (i : Nat)

/-- Whether the event is a handle construction or destruction. -/
def LifecycleEvent.isConstructOrDestroy : LifecycleEvent → Bool
  | .construct _ => true
  | .destroy _ => true
  | .reinstantiate _ => false

/-- The process state: the global host state plus all live handles. -/
structure SysState where
  global : GlobalState
  handles : List Handle

/-- The freshly started process. -/
def sysInit : SysState := ⟨initialGlobalState, []⟩

/-- One lifecycle step.  A construction that throws produces no handle; a
destruction or reinstantiation of a nonexistent handle index is not a valid
step (`none`). -/
def sysStep (env : HostEnv) (s : SysState) : LifecycleEvent → Option SysState
  | .construct path =>
      let r := constructPlugin env path s.global
      let newHandles :=
        match r.handle with
        | some h => s.handles ++ [h]
        | none => s.handles
      some { global := r.global, handles := newHandles }
  | .destroy i =>
      match s.handles.get? i with
      | none => none
      | some h => some { global := destroyHandle h s.global,
                         handles := s.handles.eraseIdx i }
  | .reinstantiate i =>
      match s.handles.get? i with
      | none => none
      | some h =>
          let r := reinstantiatePlugin env h s.global
          some { global := r.global, handles := s.handles.set i r.handle }

/-- Run a sequence of lifecycle events. -/
def sysRun (env : HostEnv) (s : SysState) : List LifecycleEvent → Option SysState
  | [] => some s
  | e :: es =>
      match sysStep env s e with
      | none => none
      | some s2 => sysRun env s2 es

/-! ## Auxiliary: a substring check used to state what an error message does
or does not name -/

/-- Whether `sub` occurs contiguously inside the character list. -/
def listHasInfix (sub : List Char) : List Char → Bool
  | [] => sub.isEmpty
  | c :: rest => sub.isPrefixOf (c :: rest) || listHasInfix sub rest

/-- Whether the string `sub` occurs contiguously inside `s`. -/
def strContainsSub (s sub : String) : Bool :=
  listHasInfix sub.toList s.toList

/-- An infix of the right part of an append is an infix of the whole. -/
theorem listHasInfix_append_left (sub l2 : List Char) (l1 : List Char)
    (h : listHasInfix sub l2 = true) : listHasInfix sub (l1 ++ l2) = true := by
  induction l1 with
  | nil => exact h
  | cons c rest ih => simp [listHasInfix, ih]

/-- A substring of the right part of a string append is a substring of the
whole. -/
theorem strContainsSub_append_left (a b sub : String)
    (h : strContainsSub b sub = true) : strContainsSub (a ++ b) sub = true := by
  unfold strContainsSub at h ⊢
  have hdata : (a ++ b).toList = a.toList ++ b.toList := by
    cases a; cases b; rfl
  rw [hdata]
  exact listHasInfix_append_left _ _ _ h

/-! ## Concrete fixtures used by witnesses and counterexamples -/

/-- A 1-in/1-out effect instance. -/
def monoInstance : PluginInstance :=
  { instName := "MonoGain"
    inputBuses := [⟨true, 1, fun n => n⟩]
    outputBuses := [⟨true, 1, fun n => n⟩]
    params := [⟨"Gain"⟩, ⟨"Mix"⟩]
    stateBlob := ⟨[1, 2, 3]⟩
    resetCount := 0 }

/-- A stereo-only effect instance: both main buses refuse every channel-count
request and stay at 2 channels. -/
def stereoOnlyInstance : PluginInstance :=
  { instName := "StereoVerb"
    inputBuses := [⟨true, 2, fun _ => 2⟩]
    outputBuses := [⟨true, 2, fun _ => 2⟩]
    params := [⟨"Gain"⟩, ⟨"Gain"⟩, ⟨"Mix"⟩]
    stateBlob := ⟨[]⟩
    resetCount := 0 }

/-- A generator-only instance: no input buses at all. -/
def instrumentInstance : PluginInstance :=
  { instName := "SynthOnly"
    inputBuses := []
    outputBuses := [⟨true, 2, fun n => n⟩]
    params := []
    stateBlob := ⟨[]⟩
    resetCount := 0 }

/-- A plugin description fixture. -/
def descA : PluginDescription := ⟨"TestVerb", 1⟩

/-- An environment on which no path exists. -/
def envNoFile : HostEnv :=
  { fileExists := fun _ => false
    scan := fun _ => []
    create := fun _ _ _ => .error "no such plugin"
    machineName := "x86_64" }

/-- An environment on which every path exists but every scan comes back
empty (wrong format). -/
def envEmptyScan : HostEnv :=
  { fileExists := fun _ => true
    scan := fun _ => []
    create := fun _ _ _ => .error "unreachable"
    machineName := "x86_64" }

/-- An environment on which every load fully succeeds. -/
def envAllOk : HostEnv :=
  { fileExists := fun _ => true
    scan := fun _ => [descA]
    create := fun _ _ _ => .ok stereoOnlyInstance
    machineName := "x86_64" }

/-- An environment on which scanning works but native instantiation fails. -/
def envCreateFails : HostEnv :=
  { fileExists := fun _ => true
    scan := fun _ => [descA]
    create := fun _ _ _ => .error "shared library dependencies missing"
    machineName := "x86_64" }

/-! ## C10: `process` with no live instance is a no-op -/

/-- C10 (confirmed): for a handle holding no live native instance, `process`
returns normally with no error and leaves the caller's buffer completely
unchanged, for every block and even when the context uses separate input and
output blocks — the whole body of `ExternalPlugin::process` sits under
`if (pluginInstance)`, so nothing (including the separate-blocks rejection)
runs when the instance pointer is null. -/
theorem process_without_instance_is_noop {α : Type} (zeroSample : α)
    (native : PluginInstance → List (List α) → List (List α))
    (usesSeparateBlocks : Bool) (outputBlock : List (List α)) :
    process zeroSample native none usesSeparateBlocks outputBlock =
      ⟨outputBlock, none⟩ := rfl

/-! ## C2: channel-count validation in `process` -/

/-- C2 counterexample: the claim promises that every channel mismatch ends
in `ChannelMismatchError` with the buffer untouched, but when the caller's
channel count exceeds the summed enabled input channel count the source
first writes `channelPointers[i]` for every caller channel into a
`std::vector` sized to the (smaller) sum — an out-of-bounds write with no
defined behaviour — before it ever reaches the validation that would throw
`ChannelMismatchError`.  Concretely: a 1-in/1-out instance given a 2-channel
block (a mismatch, since the main input bus expects 1 channel) hits the
out-of-bounds write, not the `ChannelMismatchError` path. -/
theorem process_mismatch_oob_counterexample :
    monoInstance.getMainBusNumInputChannels ≠
        ([[0], [0]] : List (List Int)).length ∧
    process (0 : Int) (fun _ b => b) (some monoInstance) false [[0], [0]] =
      ⟨[[0], [0]], some PbErr.outOfBoundsWrite⟩ ∧
    ((process (0 : Int) (fun _ b => b) (some monoInstance) false
        [[0], [0]]).err.map PbErr.isChannelMismatch) = some false :=
  ⟨by decide, rfl, rfl⟩

/-- C2 (corrected): for every instance and block whose channel count does
not exceed the summed enabled input channel count, if the caller's channel
count differs from the instance's main input channel count, or the
instance's main output channel count is below the caller's channel count,
then `process` fails with `ChannelMismatchError` — carrying exactly the
source's message, which names the expected and the provided channel counts —
and the caller's buffer is returned unmodified.  (Without the bound on the
caller's channel count the source performs an out-of-bounds write before
validating; see the counterexample.) -/
theorem process_mismatch_raises_channel_mismatch {α : Type} (zeroSample : α)
    (native : PluginInstance → List (List α) → List (List α))
    (inst : PluginInstance) (outputBlock : List (List α))
    (hfit : outputBlock.length ≤ sumEnabledInputChannels inst)
    (hmm : inst.getMainBusNumInputChannels ≠ outputBlock.length ∨
           inst.getMainBusNumOutputChannels < outputBlock.length) :
    process zeroSample native (some inst) false outputBlock =
      ⟨outputBlock,
       some (.channelMismatch
         (if inst.getMainBusNumInputChannels ≠ outputBlock.length then
            inputMismatchMessage inst outputBlock.length
          else outputMismatchMessage inst outputBlock.length))⟩ := by
  have hnlt : ¬ sumEnabledInputChannels inst < outputBlock.length :=
    Nat.not_lt.mpr hfit
  by_cases hin : inst.getMainBusNumInputChannels = outputBlock.length
  · have hout : inst.getMainBusNumOutputChannels < outputBlock.length := by
      rcases hmm with h | h
      · exact absurd hin h
      · exact h
    simp [process, hnlt, hin, hout]
  · simp [process, hnlt, hin]

/-- C2 witness: a stereo instance given a 1-channel block fails with the
input-channel `ChannelMismatchError` and the unmodified buffer. -/
theorem process_mismatch_raises_channel_mismatch_witness :
    process (0 : Int) (fun _ b => b) (some stereoOnlyInstance) false [[0, 0]] =
      ⟨[[0, 0]],
       some (.channelMismatch
         (if stereoOnlyInstance.getMainBusNumInputChannels ≠
              ([[0, 0]] : List (List Int)).length then
            inputMismatchMessage stereoOnlyInstance ([[0, 0]] : List (List Int)).length
          else outputMismatchMessage stereoOnlyInstance
              ([[0, 0]] : List (List Int)).length))⟩ :=
  process_mismatch_raises_channel_mismatch 0 (fun _ b => b) stereoOnlyInstance
    [[0, 0]] (by decide) (Or.inl (by decide))

/-! ## C5: nonexistent path -/

/-- C5 (confirmed): constructing from a path that does not exist (after
stripping trailing separators) throws `PluginNotFoundError` — an
`ImportError`-class exception whose message says the plugin file was not
found — and the trace contains no scan event: the existence check and throw
happen before `scanAndAddFile` is ever reached. -/
theorem construct_missing_path (env : HostEnv) (path : String) (g : GlobalState)
    (hmiss : env.fileExists (trimTrailingSeparators path) = false) :
    constructPlugin env path g =
      { handle := none, global := { g with mmExists := true },
        err := some (.pluginNotFound (notFoundMessage path)),
        trace := [.ensureMessageManager] } ∧
    PbErr.isImportError (.pluginNotFound (notFoundMessage path)) = true ∧
    strContainsSub (notFoundMessage path) "plugin file not found" = true ∧
    (∀ p, TraceEv.scanFile p ∉ (constructPlugin env path g).trace) := by
  have hmain : constructPlugin env path g =
      { handle := none, global := { g with mmExists := true },
        err := some (.pluginNotFound (notFoundMessage path)),
        trace := [.ensureMessageManager] } := by
    simp [constructPlugin, hmiss]
  refine ⟨hmain, rfl, ?_, ?_⟩
  · unfold notFoundMessage
    exact strContainsSub_append_left _ _ _ (by decide)
  · intro p
    rw [hmain]
    intro hmem
    simp at hmem

/-- C5 witness: a concrete missing path. -/
theorem construct_missing_path_witness :
    constructPlugin envNoFile "/missing/plugin.vst3" initialGlobalState =
      { handle := none, global := { numActive := 0, mmExists := true },
        err := some (.pluginNotFound (notFoundMessage "/missing/plugin.vst3")),
        trace := [.ensureMessageManager] } :=
  (construct_missing_path envNoFile "/missing/plugin.vst3" initialGlobalState rfl).1

/-! ## C6: empty scan on an existing path (Linux message) -/

/-- C6 (confirmed): constructing from an existing path whose scan yields
zero plugin descriptions throws `PluginLoadError`, and (Linux platform) the
message embeds the dependency-check hint: an `ldd` command whose argument is
the expected shared-object path
`<bundle>/Contents/<machine>-linux/<bundle-name>.so` built from the stripped
bundle path, the `uname` machine name and the bundle file name without its
extension. -/
theorem construct_empty_scan (env : HostEnv) (path : String) (g : GlobalState)
    (hex : env.fileExists (trimTrailingSeparators path) = true)
    (hscan : env.scan (trimTrailingSeparators path) = []) :
    constructPlugin env path g =
      { handle := none, global := { g with mmExists := true },
        err := some (.pluginLoad
          (scanFailureMessage env.machineName path (trimTrailingSeparators path))),
        trace := [.ensureMessageManager, .scanFile (trimTrailingSeparators path)] } ∧
    scanFailureMessage env.machineName path (trimTrailingSeparators path) =
      "Unable to load plugin " ++ path ++
        ": unsupported plugin format or load failure. Plugin files or " ++
        "shared library dependencies may be missing. (Try running `ldd \"" ++
        (trimTrailingSeparators path ++ "/Contents/" ++ env.machineName ++ "-linux/" ++
          fileNameWithoutExtension (trimTrailingSeparators path) ++ ".so") ++
        "\"` to " ++ "see which dependencies might be missing.)." := by
  constructor
  · simp [constructPlugin, hex, hscan]
  · simp only [scanFailureMessage, getChildFile, String.append_assoc]
    rfl

/-- C6 witness: a concrete bundle path with a trailing separator; the hint
names `/plugins/MyPlugin.vst3/Contents/x86_64-linux/MyPlugin.so`. -/
theorem construct_empty_scan_witness :
    constructPlugin envEmptyScan "/plugins/MyPlugin.vst3/" initialGlobalState =
      { handle := none, global := { numActive := 0, mmExists := true },
        err := some (.pluginLoad (scanFailureMessage "x86_64" "/plugins/MyPlugin.vst3/"
          (trimTrailingSeparators "/plugins/MyPlugin.vst3/"))),
        trace := [.ensureMessageManager,
          .scanFile (trimTrailingSeparators "/plugins/MyPlugin.vst3/")] } ∧
    scanFailureMessage "x86_64" "/plugins/MyPlugin.vst3/"
        (trimTrailingSeparators "/plugins/MyPlugin.vst3/") =
      "Unable to load plugin /plugins/MyPlugin.vst3/: unsupported plugin " ++
        "format or load failure. Plugin files or shared library dependencies " ++
        "may be missing. (Try running `ldd " ++ "\"" ++
        "/plugins/MyPlugin.vst3/Contents/x86_64-linux/MyPlugin.so" ++ "\"" ++
        "` to see which dependencies might be missing.)." := by
  refine ⟨(construct_empty_scan envEmptyScan "/plugins/MyPlugin.vst3/"
    initialGlobalState rfl rfl).1, ?_⟩
  rfl

/-! ## C7: first description kept; fixed load sample rate and block size -/

/-- C7 (confirmed): on a successful load exactly the head of the scan's
description list is stored in the handle (the rest are discarded: the handle
keeps a single description), and the instance is created with
`ExternalLoadSampleRate = 44100` and `ExternalLoadMaximumBlockSize = 8192`
passed to `createPluginInstance`, as the trace records. -/
theorem construct_keeps_first_description (env : HostEnv) (path : String)
    (g : GlobalState) (d : PluginDescription) (rest : List PluginDescription)
    (fresh : PluginInstance)
    (hex : env.fileExists (trimTrailingSeparators path) = true)
    (hscan : env.scan (trimTrailingSeparators path) = d :: rest)
    (hcreate : env.create d ExternalLoadSampleRate ExternalLoadMaximumBlockSize =
      Except.ok fresh) :
    constructPlugin env path g =
      { handle := some
          (Handle.mk path d (some (restoredInstance fresh emptyBlob))),
        global := { numActive := g.numActive + 1, mmExists := true },
        err := none,
        trace := [.ensureMessageManager, .scanFile (trimTrailingSeparators path),
          .tryCreateInstance d ExternalLoadSampleRate ExternalLoadMaximumBlockSize true,
          .incrementCount, .setState emptyBlob, .resetInstance] } ∧
    ExternalLoadSampleRate = 44100 ∧ ExternalLoadMaximumBlockSize = 8192 := by
  refine ⟨?_, rfl, rfl⟩
  simp [constructPlugin, reinstantiatePlugin, hex, hscan, hcreate]

/-- C7 witness: a concrete successful load keeping `descA`. -/
theorem construct_keeps_first_description_witness :
    constructPlugin envAllOk "/plugins/MyPlugin.vst3" initialGlobalState =
      { handle := some
          (Handle.mk "/plugins/MyPlugin.vst3" descA
            (some (restoredInstance stereoOnlyInstance emptyBlob))),
        global := { numActive := (0 : Int) + 1, mmExists := true },
        err := none,
        trace := [.ensureMessageManager,
          .scanFile (trimTrailingSeparators "/plugins/MyPlugin.vst3"),
          .tryCreateInstance descA ExternalLoadSampleRate ExternalLoadMaximumBlockSize true,
          .incrementCount, .setState emptyBlob, .resetInstance] } :=
  (construct_keeps_first_description envAllOk "/plugins/MyPlugin.vst3"
    initialGlobalState descA [] stereoOnlyInstance rfl rfl rfl).1

/-! ## C4: reinstantiation -/

/-- C4 (confirmed): on a handle holding a live instance,
`reinstantiatePlugin` performs, in this order: capture of the instance's
state blob, destruction of the instance, decrement of the active count,
creation of a fresh instance from the stored description (at the fixed load
sample rate and block size), increment of the count, reapplication of the
captured blob, and the new instance's own `reset()` — exactly the recorded
trace.  When creation fails, the trace stops at the failed creation, the
error is `PluginLoadError` whose message appends the native error string,
and the handle is left without a live instance (with the count left
decremented). -/
theorem reinstantiate_spec (env : HostEnv) (h : Handle) (g : GlobalState)
    (inst : PluginInstance) (hinst : h.pluginInstance = some inst) :
    (∀ fresh, env.create h.foundPluginDescription ExternalLoadSampleRate
        ExternalLoadMaximumBlockSize = Except.ok fresh →
      reinstantiatePlugin env h g =
        { handle :=
            { h with pluginInstance := some (restoredInstance fresh inst.stateBlob) },
          global := { g with numActive := g.numActive - 1 + 1 },
          err := none,
          trace := [.getState inst.stateBlob, .destroyInstance, .decrementCount,
            .tryCreateInstance h.foundPluginDescription ExternalLoadSampleRate
              ExternalLoadMaximumBlockSize true,
            .incrementCount, .setState inst.stateBlob, .resetInstance] }) ∧
    (∀ msg, env.create h.foundPluginDescription ExternalLoadSampleRate
        ExternalLoadMaximumBlockSize = Except.error msg →
      reinstantiatePlugin env h g =
        { handle := { h with pluginInstance := none },
          global := { g with numActive := g.numActive - 1 },
          err := some (.pluginLoad
            ("Unable to load plugin " ++ h.pathToPluginFile ++ ": " ++ msg)),
          trace := [.getState inst.stateBlob, .destroyInstance, .decrementCount,
            .tryCreateInstance h.foundPluginDescription ExternalLoadSampleRate
              ExternalLoadMaximumBlockSize false] }) := by
  constructor
  · intro fresh hcreate
    simp [reinstantiatePlugin, hinst, hcreate]
  · intro msg hcreate
    simp [reinstantiatePlugin, hinst, hcreate]

/-- A handle owning a live mono instance, for concrete checks. -/
def liveHandle : Handle :=
  { pathToPluginFile := "/plugins/MyPlugin.vst3"
    foundPluginDescription := descA
    pluginInstance := some monoInstance }

/-- C4 witness: a concrete successful reinstantiation; the fresh instance
receives the old instance's state blob and one `reset()` call, and the
counter is decremented and re-incremented. -/
theorem reinstantiate_spec_witness :
    reinstantiatePlugin envAllOk liveHandle initialGlobalState =
      { handle :=
          { liveHandle with pluginInstance := some (restoredInstance stereoOnlyInstance monoInstance.stateBlob) },
        global := { numActive := (0 : Int) - 1 + 1, mmExists := false },
        err := none,
        trace := [.getState monoInstance.stateBlob, .destroyInstance, .decrementCount,
          .tryCreateInstance descA ExternalLoadSampleRate ExternalLoadMaximumBlockSize true,
          .incrementCount, .setState monoInstance.stateBlob, .resetInstance] } :=
  (reinstantiate_spec envAllOk liveHandle initialGlobalState monoInstance rfl).1
    stereoOnlyInstance rfl

/-! ## C8: parameter lookup -/

/-- `findParam` comes back empty exactly when no parameter's truncated name
matches the query. -/
theorem findParam_eq_none_iff (ps : List Param) (q : String) :
    findParam ps q = none ↔ ∀ p ∈ ps, p.getName 512 ≠ q := by
  induction ps with
  | nil => simp [findParam]
  | cons hd tl ih =>
      by_cases hp : hd.getName 512 = q
      · simp [findParam, hp]
      · simp [findParam, hp, ih]

/-- A hit of `findParam` is a matching parameter, and everything strictly
before it in the list does not match. -/
theorem findParam_some_spec (ps : List Param) (q : String) (p : Param)
    (hfind : findParam ps q = some p) :
    p.getName 512 = q ∧
    ∃ pre post, ps = pre ++ p :: post ∧ ∀ p2 ∈ pre, p2.getName 512 ≠ q := by
  induction ps with
  | nil => simp [findParam] at hfind
  | cons hd tl ih =>
      by_cases hp : hd.getName 512 = q
      · have hpd : hd = p := by
          have := hfind
          simp [findParam, hp] at this
          exact this
        subst hpd
        exact ⟨hp, [], tl, rfl, by simp⟩
      · have hfind2 : findParam tl q = some p := by
          have := hfind
          simpa [findParam, hp] using this
        obtain ⟨hname, pre, post, heq, hpre⟩ := ih hfind2
        refine ⟨hname, hd :: pre, post, by simp [heq], ?_⟩
        intro p2 hmem
        rcases List.mem_cons.mp hmem with hc | hc
        · rw [hc]; exact hp
        · exact hpre p2 hc

/-- C8 (confirmed): `getParameter(name)` walks the live instance's parameter
list in order and returns the first parameter whose display name truncated
to 512 characters equals the query exactly (everything earlier in the list
does not match), and returns the null/not-found result — raising nothing —
exactly when no parameter matches. -/
theorem getParameter_first_match (inst : PluginInstance) (q : String) :
    (inst.getParameter q = none ↔ ∀ p ∈ inst.params, p.getName 512 ≠ q) ∧
    (∀ p, inst.getParameter q = some p →
      p.getName 512 = q ∧
      ∃ pre post, inst.params = pre ++ p :: post ∧ ∀ p2 ∈ pre, p2.getName 512 ≠ q) := by
  constructor
  · exact findParam_eq_none_iff inst.params q
  · intro p hp
    exact findParam_some_spec inst.params q p hp

/-- C8 witness: on a concrete instance with a duplicated parameter name,
lookup of an absent name is `none` (via the theorem), and lookup of the
duplicated name hits the first occurrence. -/
theorem getParameter_first_match_witness :
    stereoOnlyInstance.getParameter "Zilch" = none ∧
    stereoOnlyInstance.getParameter "Gain" = some ⟨"Gain"⟩ :=
  ⟨(getParameter_first_match stereoOnlyInstance "Zilch").1.mpr (by decide), rfl⟩

/-! ## C9: the destructor decrements unconditionally -/

/-- C9 (confirmed): destroying a handle decrements the global active count
by exactly one whatever the handle holds — the destructor body never
consults the handle's instance pointer before decrementing — so a handle
left without a live instance by a failed reinstantiation still decrements
the counter on destruction (the second conjunct: the destructor's effect is
identical for the same handle with its instance removed). -/
theorem destructor_always_decrements (g : GlobalState) (h : Handle) :
    (destroyHandle h g).numActive = g.numActive - 1 ∧
    destroyHandle h g = destroyHandle { h with pluginInstance := none } g := by
  refine ⟨?_, rfl⟩
  unfold destroyHandle
  by_cases hz : g.numActive - 1 = 0
  · simp [hz]
  · simp [hz]

/-! ## C3: channel negotiation -/

/-- The instance as `setNumChannels` leaves it when both main buses exist:
non-main buses disabled, both main buses holding their (plugin-decided)
response to the channel-count request. -/
def negotiatedInstance (inst : PluginInstance) (n : Nat) (bIn bOut : Bus)
    (restIn restOut : List Bus) : PluginInstance :=
  { inst with
      inputBuses :=
        Bus.setNumberOfChannels bIn n :: restIn.map (fun c => { c with enabled := false }),
      outputBuses :=
        Bus.setNumberOfChannels bOut n :: restOut.map (fun c => { c with enabled := false }) }

/-- Evaluation of `setNumChannels` on an instance whose main input and
output buses both exist. -/
theorem setNumChannels_eq (inst : PluginInstance) (n : Nat) (bIn bOut : Bus)
    (restIn restOut : List Bus) (hI : inst.inputBuses = bIn :: restIn)
    (hO : inst.outputBuses = bOut :: restOut) :
    setNumChannels (some inst) n =
      (if bIn.respond n ≠ n ∨ bOut.respond n ≠ n then
        ⟨some (negotiatedInstance inst n bIn bOut restIn restOut),
         some (.unsupportedConfiguration
           (channelRefusalMessage inst.instName n (bIn.respond n) (bOut.respond n)))⟩
       else ⟨some (negotiatedInstance inst n bIn bOut restIn restOut), none⟩) := by
  simp only [setNumChannels, hI, hO, disableNonMain, Bus.setNumberOfChannels,
    negotiatedInstance]

/-- C3 counterexample: on a live instance with no main input bus (an
instrument), `setNumChannels 2` raises `UnsupportedConfigurationError`, but
its message — the instrument-rejection text — names neither the requested
count `2` nor any actual bus channel count (it contains no digit at all),
contradicting the claim that the error always names the requested and
actual counts. -/
theorem setNumChannels_no_input_bus_counterexample :
    (setNumChannels (some instrumentInstance) 2).err =
      some (.unsupportedConfiguration (noInputBusMessage "SynthOnly")) ∧
    strContainsSub (noInputBusMessage "SynthOnly") "2" = false :=
  ⟨rfl, by decide⟩

/-- C3 (corrected): on a live instance that has both a main input and a main
output bus, `setNumChannels n` either returns normally with both main buses
at exactly `n` channels, or raises `UnsupportedConfigurationError` whose
message is the source's rejection naming the plugin, the requested count `n`
and both buses' actual post-request channel counts (at least one of which
differs from `n`).  An instance without a main input bus instead raises the
instrument rejection, which names only the plugin (see the counterexample). -/
theorem setNumChannels_negotiation (inst : PluginInstance) (n : Nat)
    (hin : 0 < inst.inputBuses.length) (hout : 0 < inst.outputBuses.length) :
    (∃ inst2, setNumChannels (some inst) n = ⟨some inst2, none⟩ ∧
      inst2.getMainBusNumInputChannels = n ∧
      inst2.getMainBusNumOutputChannels = n) ∨
    (∃ inst2 actualIn actualOut,
      ¬ (actualIn = n ∧ actualOut = n) ∧
      inst2.getMainBusNumInputChannels = actualIn ∧
      inst2.getMainBusNumOutputChannels = actualOut ∧
      setNumChannels (some inst) n =
        ⟨some inst2, some (.unsupportedConfiguration
          (channelRefusalMessage inst.instName n actualIn actualOut))⟩) := by
  obtain ⟨bIn, restIn, hI⟩ : ∃ b r, inst.inputBuses = b :: r := by
    cases hI : inst.inputBuses with
    | nil => rw [hI] at hin; simp at hin
    | cons b r => exact ⟨b, r, rfl⟩
  obtain ⟨bOut, restOut, hO⟩ : ∃ b r, inst.outputBuses = b :: r := by
    cases hO : inst.outputBuses with
    | nil => rw [hO] at hout; simp at hout
    | cons b r => exact ⟨b, r, rfl⟩
  rw [setNumChannels_eq inst n bIn bOut restIn restOut hI hO]
  by_cases hc : bIn.respond n = n ∧ bOut.respond n = n
  · rw [if_neg (by simp [hc.1, hc.2])]
    left
    refine ⟨_, rfl, ?_, ?_⟩
    · simp [negotiatedInstance, PluginInstance.getMainBusNumInputChannels,
        Bus.setNumberOfChannels, hc.1]
    · simp [negotiatedInstance, PluginInstance.getMainBusNumOutputChannels,
        Bus.setNumberOfChannels, hc.2]
  · rw [if_pos (by tauto)]
    right
    refine ⟨_, bIn.respond n, bOut.respond n, hc, ?_, ?_, rfl⟩
    · simp [negotiatedInstance, PluginInstance.getMainBusNumInputChannels,
        Bus.setNumberOfChannels]
    · simp [negotiatedInstance, PluginInstance.getMainBusNumOutputChannels,
        Bus.setNumberOfChannels]

/-- C3 witness: requesting 3 channels from a stereo-only instance lands in
the rejection branch of the dichotomy (the buses answer 2). -/
theorem setNumChannels_negotiation_witness :
    (∃ inst2, setNumChannels (some stereoOnlyInstance) 3 = ⟨some inst2, none⟩ ∧
      inst2.getMainBusNumInputChannels = 3 ∧
      inst2.getMainBusNumOutputChannels = 3) ∨
    (∃ inst2 actualIn actualOut,
      ¬ (actualIn = 3 ∧ actualOut = 3) ∧
      inst2.getMainBusNumInputChannels = actualIn ∧
      inst2.getMainBusNumOutputChannels = actualOut ∧
      setNumChannels (some stereoOnlyInstance) 3 =
        ⟨some inst2, some (.unsupportedConfiguration
          (channelRefusalMessage stereoOnlyInstance.instName 3 actualIn actualOut))⟩) :=
  setNumChannels_negotiation stereoOnlyInstance 3 (by decide) (by decide)

/-! ## C1: the active counter and the MessageManager across lifecycles -/

/-- The counter effect of the destructor. -/
theorem destroyHandle_numActive (h : Handle) (g : GlobalState) :
    (destroyHandle h g).numActive = g.numActive - 1 := by
  unfold destroyHandle
  by_cases hz : g.numActive - 1 = 0 <;> simp [hz]

/-- The MessageManager effect of the destructor: deleted exactly when the
decremented counter lands on zero. -/
theorem destroyHandle_mm (h : Handle) (g : GlobalState) :
    (destroyHandle h g).mmExists =
      if g.numActive - 1 = 0 then false else g.mmExists := by
  unfold destroyHandle
  by_cases hz : g.numActive - 1 = 0 <;> simp [hz]

/-- Outcomes of the constructor: the MessageManager always exists
afterwards (it is created before the path check), and either the
construction succeeded (no error, a handle, counter incremented) or it
threw (an error, no handle, counter unchanged). -/
theorem constructPlugin_cases (env : HostEnv) (path : String) (g : GlobalState) :
    (constructPlugin env path g).global.mmExists = true ∧
    (((constructPlugin env path g).err = none ∧
        (∃ h2, (constructPlugin env path g).handle = some h2) ∧
        (constructPlugin env path g).global.numActive = g.numActive + 1) ∨
     ((constructPlugin env path g).err ≠ none ∧
        (constructPlugin env path g).handle = none ∧
        (constructPlugin env path g).global.numActive = g.numActive)) := by
  by_cases hex : env.fileExists (trimTrailingSeparators path) = true
  · cases hscan : env.scan (trimTrailingSeparators path) with
    | nil => simp [constructPlugin, hex, hscan]
    | cons d rest =>
        cases hcr : env.create d ExternalLoadSampleRate ExternalLoadMaximumBlockSize with
        | error msg => simp [constructPlugin, reinstantiatePlugin, hex, hscan, hcr]
        | ok fresh => simp [constructPlugin, reinstantiatePlugin, hex, hscan, hcr]
  · simp [constructPlugin, hex]

/-- The weak counter invariant: the counter equals the number of live
handles, and a positive counter implies the MessageManager exists. -/
def CounterInv (s : SysState) : Prop :=
  s.global.numActive = s.handles.length ∧
  (0 < s.global.numActive → s.global.mmExists = true)

/-- The strong counter invariant: additionally, the MessageManager exists
exactly when the counter is positive. -/
def CounterInvStrong (s : SysState) : Prop :=
  s.global.numActive = s.handles.length ∧
  (s.global.mmExists = true ↔ 0 < s.global.numActive)

/-- A construction step preserves the weak invariant. -/
theorem sysStep_construct_inv (env : HostEnv) (path : String) {s s2 : SysState}
    (hstep : sysStep env s (.construct path) = some s2)
    (hinv : CounterInv s) : CounterInv s2 := by
  simp only [sysStep] at hstep
  obtain ⟨hmm, hor⟩ := constructPlugin_cases env path s.global
  cases hstep
  rcases hor with ⟨_herr, ⟨h2, hh⟩, hcount⟩ | ⟨_herr, hh, hcount⟩
  · refine ⟨?_, fun _ => hmm⟩
    simp only [hh]
    rw [hcount, hinv.1]
    simp
  · refine ⟨?_, fun _ => hmm⟩
    simp only [hh]
    rw [hcount, hinv.1]

/-- A destruction step preserves the weak invariant. -/
theorem sysStep_destroy_inv (env : HostEnv) (i : Nat) {s s2 : SysState}
    (hstep : sysStep env s (.destroy i) = some s2)
    (hinv : CounterInv s) : CounterInv s2 := by
  simp only [sysStep] at hstep
  cases hget : s.handles.get? i with
  | none => rw [hget] at hstep; cases hstep
  | some h =>
      rw [hget] at hstep
      cases hstep
      have hlt : i < s.handles.length := by
        by_contra hge
        rw [List.get?_eq_none.mpr (by omega)] at hget
        cases hget
      have hlen : (s.handles.eraseIdx i).length = s.handles.length - 1 := by
        simp [List.length_eraseIdx, hlt]
      have h1 := hinv.1
      constructor
      · show (destroyHandle h s.global).numActive = (s.handles.eraseIdx i).length
        rw [destroyHandle_numActive, hlen]
        omega
      · intro hpos
        rw [destroyHandle_numActive] at hpos
        show (destroyHandle h s.global).mmExists = true
        rw [destroyHandle_mm, if_neg (by omega)]
        exact hinv.2 (by omega)

/-- Running construction/destruction events preserves the weak invariant. -/
theorem sysRun_inv (env : HostEnv) :
    ∀ (es : List LifecycleEvent) (s0 s : SysState),
      (∀ e ∈ es, e.isConstructOrDestroy = true) →
      CounterInv s0 → sysRun env s0 es = some s → CounterInv s := by
  intro es
  induction es with
  | nil =>
      intro s0 s _hall hinv hrun
      simp only [sysRun, Option.some.injEq] at hrun
      rwa [← hrun]
  | cons e rest ih =>
      intro s0 s hall hinv hrun
      rcases hstep : sysStep env s0 e with _ | s1
      · rw [sysRun, hstep] at hrun; cases hrun
      · rw [sysRun, hstep] at hrun
        have h1 : CounterInv s1 := by
          cases e with
          | construct p => exact sysStep_construct_inv env p hstep hinv
          | destroy i => exact sysStep_destroy_inv env i hstep hinv
          | reinstantiate i =>
              have hbad := hall _ (List.mem_cons_self _ _)
              simp [LifecycleEvent.isConstructOrDestroy] at hbad
        exact ih s1 s (fun e2 he2 => hall e2 (List.mem_cons_of_mem _ he2)) h1 hrun

/-- A successful construction step preserves the strong invariant. -/
theorem sysStep_construct_invS (env : HostEnv) (path : String) {s s2 : SysState}
    (hstep : sysStep env s (.construct path) = some s2)
    (hsucc : (constructPlugin env path s.global).err = none)
    (hinv : CounterInvStrong s) : CounterInvStrong s2 := by
  simp only [sysStep] at hstep
  obtain ⟨hmm, hor⟩ := constructPlugin_cases env path s.global
  cases hstep
  rcases hor with ⟨_herr, ⟨h2, hh⟩, hcount⟩ | ⟨herr, _hh, _hcount⟩
  · constructor
    · simp only [hh]
      rw [hcount, hinv.1]
      simp
    · rw [hmm, hcount, hinv.1]
      simp only [true_iff]
      omega
  · exact absurd hsucc herr

/-- A destruction step preserves the strong invariant. -/
theorem sysStep_destroy_invS (env : HostEnv) (i : Nat) {s s2 : SysState}
    (hstep : sysStep env s (.destroy i) = some s2)
    (hinv : CounterInvStrong s) : CounterInvStrong s2 := by
  simp only [sysStep] at hstep
  cases hget : s.handles.get? i with
  | none => rw [hget] at hstep; cases hstep
  | some h =>
      rw [hget] at hstep
      cases hstep
      have hlt : i < s.handles.length := by
        by_contra hge
        rw [List.get?_eq_none.mpr (by omega)] at hget
        cases hget
      have hlen : (s.handles.eraseIdx i).length = s.handles.length - 1 := by
        simp [List.length_eraseIdx, hlt]
      have h1 := hinv.1
      constructor
      · show (destroyHandle h s.global).numActive = (s.handles.eraseIdx i).length
        rw [destroyHandle_numActive, hlen]
        omega
      · show (destroyHandle h s.global).mmExists = true ↔
          0 < (destroyHandle h s.global).numActive
        rw [destroyHandle_mm, destroyHandle_numActive]
        by_cases hz : s.global.numActive - 1 = 0
        · rw [if_pos hz]
          simp
          omega
        · rw [if_neg hz]
          have hpos : 0 < s.global.numActive := by omega
          have := hinv.2.mpr hpos
          rw [this]
          simp only [true_iff]
          omega

/-- Running only successful constructions and destructions preserves the
strong invariant. -/
theorem sysRun_invS (env : HostEnv) :
    ∀ (es : List LifecycleEvent) (s0 s : SysState),
      (∀ e ∈ es, e.isConstructOrDestroy = true) →
      (∀ path g, LifecycleEvent.construct path ∈ es →
        (constructPlugin env path g).err = none) →
      CounterInvStrong s0 → sysRun env s0 es = some s → CounterInvStrong s := by
  intro es
  induction es with
  | nil =>
      intro s0 s _hall _hsucc hinv hrun
      simp only [sysRun, Option.some.injEq] at hrun
      rwa [← hrun]
  | cons e rest ih =>
      intro s0 s hall hsucc hinv hrun
      rcases hstep : sysStep env s0 e with _ | s1
      · rw [sysRun, hstep] at hrun; cases hrun
      · rw [sysRun, hstep] at hrun
        have h1 : CounterInvStrong s1 := by
          cases e with
          | construct p =>
              exact sysStep_construct_invS env p hstep
                (hsucc p s0.global (List.mem_cons_self _ _)) hinv
          | destroy i => exact sysStep_destroy_invS env i hstep hinv
          | reinstantiate i =>
              have hbad := hall _ (List.mem_cons_self _ _)
              simp [LifecycleEvent.isConstructOrDestroy] at hbad
        exact ih s1 s (fun e2 he2 => hall e2 (List.mem_cons_of_mem _ he2))
          (fun path g hm => hsucc path g (List.mem_cons_of_mem _ hm)) h1 hrun

/-- C1 counterexample: one single (failed) handle construction from a
nonexistent path — a construct/destroy sequence — leaves the
MessageManager singleton in existence while the counter is 0: the
constructor calls `MessageManager::getInstance()` before it validates the
path, and no failure path deletes the singleton, so "the singleton exists
iff the counter is greater than zero" is false after this sequence. -/
theorem mm_without_active_counterexample :
    sysRun envNoFile sysInit [.construct "/missing.vst3"] =
      some { global := { numActive := 0, mmExists := true }, handles := [] } ∧
    LifecycleEvent.isConstructOrDestroy (.construct "/missing.vst3") = true ∧
    ¬ (({ numActive := 0, mmExists := true } : GlobalState).mmExists = true ↔
       0 < ({ numActive := 0, mmExists := true } : GlobalState).numActive) := by
  refine ⟨rfl, rfl, fun hiff => ?_⟩
  exact absurd (hiff.mp rfl) (by norm_num)

/-- C1 (corrected): over every sequence of handle constructions and
destructions the counter never becomes negative, and a positive counter
implies the MessageManager exists; the converse — the MessageManager exists
only when the counter is positive — holds provided every construction in
the sequence succeeds.  (A failed construction creates the MessageManager
and leaves the counter at zero; see the counterexample.) -/
theorem activeCount_and_messageManager (env : HostEnv) (es : List LifecycleEvent)
    (s : SysState)
    (hcd : ∀ e ∈ es, e.isConstructOrDestroy = true)
    (hrun : sysRun env sysInit es = some s) :
    0 ≤ s.global.numActive ∧
    (0 < s.global.numActive → s.global.mmExists = true) ∧
    ((∀ path g, LifecycleEvent.construct path ∈ es →
        (constructPlugin env path g).err = none) →
      (s.global.mmExists = true ↔ 0 < s.global.numActive)) := by
  have hinit : CounterInv sysInit := by
    constructor
    · rfl
    · intro hpos
      exact absurd hpos (by norm_num [sysInit, initialGlobalState])
  have hinv : CounterInv s := sysRun_inv env es sysInit s hcd hinit hrun
  refine ⟨?_, hinv.2, ?_⟩
  · rw [hinv.1]
    exact Int.natCast_nonneg _
  · intro hsucc
    have hinitS : CounterInvStrong sysInit := by
      constructor
      · rfl
      · simp [sysInit, initialGlobalState]
    exact (sysRun_invS env es sysInit s hcd hsucc hinitS hrun).2

/-- A concrete lifecycle: two successful constructions, then both handles
destroyed. -/
def lifecycleScript : List LifecycleEvent :=
  [.construct "/a.vst3", .construct "/b.vst3", .destroy 0, .destroy 0]

/-- C1 witness: after the concrete script on an all-successful environment
the counter is back to 0, nonnegative, and the MessageManager is gone
(torn down by the destruction that returned the counter to zero). -/
theorem activeCount_and_messageManager_witness :
    sysRun envAllOk sysInit lifecycleScript =
      some { global := { numActive := 0, mmExists := false }, handles := [] } ∧
    (0 : Int) ≤ 0 ∧ ((false = true) ↔ (0 : Int) < 0) := by
  have h := activeCount_and_messageManager envAllOk lifecycleScript
    { global := { numActive := 0, mmExists := false }, handles := [] }
    (by decide) rfl
  exact ⟨rfl, h.1, h.2.2 (fun path g _ => rfl)⟩

end Pedalboard
